import Mathlib

/-!
Shallow embedding of the ovirt4cli command shell (src/ovirtcli) and proofs
about its node-tree synchronization and host lifecycle logic.

The embedding follows the Python source files `ui_ovirtcli.py` and
`ui_root.py`.  Remote SDK services are modelled by explicit lists describing
what the engine's list endpoints currently return; each command returns the
resulting node state together with the log lines it emits, the remote calls
it issues, and an optional Python exception.
-/

namespace Ovirt

/-- Python exceptions that the embedded code can raise.
`nameError` also stands for `UnboundLocalError`, which is a subclass of
`NameError` in Python. -/
inductive PyError where
  | nameError (var : String)
  | attributeError (attr : String)
  | executionError
deriving DecidableEq, Repr

/-- `ovirtsdk4.types.HostStatus` values that the source mentions, plus a
catch-all for the remaining members of the enum. -/
inductive HostStatus where
  | up
  | maintenance
  | nonOperational
  | installing
  | other
deriving DecidableEq, Repr

/-- Rendering used in log messages such as
"Host was not added properly. Status: %s". -/
def HostStatus.str : HostStatus → String
  | .up => "up"
  | .maintenance => "maintenance"
  | .nonOperational => "non_operational"
  | .installing => "installing"
  | .other => "other"

/-- Remote API calls issued by the shell, as seen by the engine. -/
inductive RemoteCall where
  | listHosts
  | getHost (id : String)
  | addHost
  | removeHost (id : String)
  | activateHost (id : String)
  | deactivateHost (id : String)
  | listDataCenters
  | addDataCenter
  | removeDataCenter (id : String)
deriving DecidableEq, Repr

/-- Whether a remote call mutates engine state (list/get are reads). -/
def RemoteCall.isMutating : RemoteCall → Bool
  | .addHost => true
  | .removeHost _ => true
  | .activateHost _ => true
  | .deactivateHost _ => true
  | .addDataCenter => true
  | .removeDataCenter _ => true
  | _ => false

/-- Snapshot of a host as returned by the engine's hosts list endpoint. -/
structure Host where
  name : String
  id : String
  status : HostStatus
  address : String
deriving DecidableEq, Repr

/-- Snapshot of a data center as returned by the engine. -/
structure DataCenter where
  name : String
  id : String
deriving DecidableEq, Repr

/-- Result of running one `ui_command_*` handler on a collection node:
the node's children (by name) afterwards, the log lines emitted, the remote
calls issued in order, and the exception raised, if any. -/
structure OpResult where
  children : List String
  log : List String
  calls : List RemoteCall
  err : Option PyError
deriving DecidableEq, Repr

/-- `self._hosts_service.list(search='name=%s' % name)`: the engine's
name filter is an exact-match filter on the host name. -/
def hostSearch (remote : List Host) (name : String) : List Host :=
  remote.filter (fun h => h.name == name)

/-- `self._dcs_service.list(search='name=%s' % name)`. -/
def dcSearch (remote : List DataCenter) (name : String) : List DataCenter :=
  remote.filter (fun d => d.name == name)

namespace UIHosts

/-- `UIHosts.refresh`: `self._children = set([])` then one `UIHost` child per
element of `self._hosts_service.list()` (guarded by `if hosts is not None`). -/
def refreshChildren (hosts : Option (List Host)) : List String :=
  match hosts with
  | none => []
  | some l => l.map Host.name

/-- `UIHosts.ui_command_delete(name)`.  The `try ... [0] except` around the
search corresponds to the empty-result case.  When the removal goes through,
the engine stops listing the removed host and `refresh` rebuilds the children
from the new listing. -/
def ui_command_delete (remote : List Host) (children : List String)
    (name : String) : OpResult :=
  match hostSearch remote name with
  | [] =>
      { children := children
        log := ["Host " ++ name ++ " not found. Check spelling."]
        calls := [RemoteCall.listHosts]
        err := none }
  | host :: _ =>
      if host.status ≠ HostStatus.maintenance then
        { children := children
          log := ["Host is not in Maintenance. Deactivate it first."]
          calls := [RemoteCall.listHosts]
          err := none }
      else
        let remote' := remote.filter (fun h => ¬ (h.id == host.id))
        { children := remote'.map Host.name
          log := []
          calls := [RemoteCall.listHosts, RemoteCall.removeHost host.id,
                    RemoteCall.listHosts]
          err := none }

/-- `UIHosts.ui_command_deactivate(name)`: guard
`if host.status != types.HostStatus.MAINTENANCE` before calling the remote
deactivate endpoint and refreshing.  The shell does not assume the transition
completed: refresh re-lists whatever the engine currently returns. -/
def ui_command_deactivate (remote : List Host) (children : List String)
    (name : String) : OpResult :=
  match hostSearch remote name with
  | [] =>
      { children := children
        log := ["Host " ++ name ++ " not found. Check spelling"]
        calls := [RemoteCall.listHosts]
        err := none }
  | host :: _ =>
      if host.status ≠ HostStatus.maintenance then
        { children := remote.map Host.name
          log := []
          calls := [RemoteCall.listHosts, RemoteCall.deactivateHost host.id,
                    RemoteCall.listHosts]
          err := none }
      else
        { children := children
          log := []
          calls := [RemoteCall.listHosts]
          err := none }

/-- `UIHosts.ui_command_activate(name)`: guard
`if host.status != types.HostStatus.UP` before calling the remote activate
endpoint and refreshing. -/
def ui_command_activate (remote : List Host) (children : List String)
    (name : String) : OpResult :=
  match hostSearch remote name with
  | [] =>
      { children := children
        log := ["Host " ++ name ++ " not found. Check spelling"]
        calls := [RemoteCall.listHosts]
        err := none }
  | host :: _ =>
      if host.status ≠ HostStatus.up then
        { children := remote.map Host.name
          log := []
          calls := [RemoteCall.listHosts, RemoteCall.activateHost host.id,
                    RemoteCall.listHosts]
          err := none }
      else
        { children := children
          log := []
          calls := [RemoteCall.listHosts]
          err := none }

end UIHosts

namespace UIData_centers

/-- `UIData_centers.refresh`. -/
def refreshChildren (dcs : Option (List DataCenter)) : List String :=
  match dcs with
  | none => []
  | some l => l.map DataCenter.name

/-- `UIData_centers.ui_command_delete(name)`. -/
def ui_command_delete (remote : List DataCenter) (children : List String)
    (name : String) : OpResult :=
  match dcSearch remote name with
  | [] =>
      { children := children
        log := ["Data center " ++ name ++ " not found. Check spelling"]
        calls := [RemoteCall.listDataCenters]
        err := none }
  | dc :: _ =>
      let remote' := remote.filter (fun d => ¬ (d.id == dc.id))
      { children := remote'.map DataCenter.name
        log := []
        calls := [RemoteCall.listDataCenters, RemoteCall.removeDataCenter dc.id,
                  RemoteCall.listDataCenters]
        err := none }

end UIData_centers

namespace UIHosts

/-- Local variables of `UIHosts.ui_command_create` that have been assigned a
value when control first reaches the `while not elapsed:` condition: the
parameters, plus `host`, `host_service`, `start_time`, `timeout` and —
with the transposition exactly as written in the source — `elpased`.
The loop condition reads the distinct name `elapsed`, which is assigned
only later inside the loop body (line `elapsed = True`), so Python treats it
as a local that is unbound at this point. -/
def createLocalsBeforeLoop : List String :=
  ["self", "name", "address", "password", "cluster", "description",
   "host", "host_service", "start_time", "timeout", "elpased"]

/-- Result of `UIHosts.ui_command_create`. -/
structure CreateResult where
  log : List String
  calls : List RemoteCall
  err : Option PyError
deriving DecidableEq, Repr

/-- One iteration of the polling loop as written in the source, for the
hypothetical case in which the `while` condition were evaluable (it is not;
see `ui_command_create`): sleep 5 seconds, `host = host_service.get()`,
break on `UP`/`NonOperational`, otherwise evaluate
`(time.time() - self.start_time) > timeout`.  `self.start_time` is read here
but never assigned anywhere in the repository (the function assigns the plain
local `start_time` instead), so that read raises `AttributeError`. -/
def createPollOnce (statuses : Nat → HostStatus) : Except PyError HostStatus :=
  let st := statuses 0
  if st = HostStatus.up ∨ st = HostStatus.nonOperational then
    Except.ok st
  else
    Except.error (PyError.attributeError ("start_time"))

/-- `UIHosts.ui_command_create(name, address, password, cluster, ...)`:
submit the add request, then run the wait loop.  `statuses k` is the status
the engine would report on the k-th `get` poll.  Evaluating the loop
condition `while not elapsed:` looks up the local `elapsed`, which is not
among `createLocalsBeforeLoop` (only `elpased` was assigned), so the lookup
raises before any poll happens. -/
def ui_command_create (statuses : Nat → HostStatus) : CreateResult :=
  if createLocalsBeforeLoop.contains ("elapsed") then
    match createPollOnce statuses with
    | Except.ok st =>
        if st = HostStatus.up then
          { log := ["Host was successfully added."]
            calls := [RemoteCall.addHost, RemoteCall.getHost ("new")]
            err := none }
        else
          { log := ["Host was not added properly. Status: " ++ st.str]
            calls := [RemoteCall.addHost, RemoteCall.getHost ("new")]
            err := none }
    | Except.error e =>
        { log := []
          calls := [RemoteCall.addHost, RemoteCall.getHost ("new")]
          err := some e }
  else
    { log := []
      calls := [RemoteCall.addHost]
      err := some (PyError.nameError ("elapsed")) }

end UIHosts

/-! ### The remaining collection refreshes (`ui_ovirtcli.py`) -/

/-- Snapshot of a cluster as returned by the engine. -/
structure Cluster where
  name : String
  id : String
  cpuType : String
deriving DecidableEq, Repr

/-- Snapshot of a storage domain as returned by the engine. -/
structure StorageDomain where
  name : String
  id : String
deriving DecidableEq, Repr

/-- Snapshot of a template as returned by the engine. -/
structure Template where
  name : String
  id : String
deriving DecidableEq, Repr

/-- Snapshot of a VM as returned by the engine. -/
structure VM where
  name : String
  id : String
deriving DecidableEq, Repr

namespace UIClusters

/-- `UIClusters.refresh`: clear children, then one `UICluster` per element
of the list (guarded by `if clusters is not None`). -/
def refreshChildren (clusters : Option (List Cluster)) : List String :=
  match clusters with
  | none => []
  | some l => l.map Cluster.name

end UIClusters

namespace UIStorage_domains

/-- `UIStorage_domains.refresh` (guarded by `if sds is not None`). -/
def refreshChildren (sds : Option (List StorageDomain)) : List String :=
  match sds with
  | none => []
  | some l => l.map StorageDomain.name

end UIStorage_domains

namespace UITemplates

/-- `UITemplates.refresh`: clear children, then one `UITemplate` per element
of the returned list (no None-guard in the source; the argument is the list
the engine returned). -/
def refreshChildren (templates : List Template) : List String :=
  templates.map Template.name

end UITemplates

namespace UIVMs

/-- `UIVMs.refresh`: `self._children = set([])`, then
`vms = self._vms_service.list()`.  The per-vm child construction
(`for vm in vms: UIVM(self, vm)`) is commented out in the source, so no
children are ever constructed, whatever the engine returned. -/
def refreshChildren (vms : List VM) : List String :=
  let _ := vms
  []

end UIVMs

/-! ### Root node and session lifecycle (`ui_root.py`) -/

/-- An `ovirtsdk4.Connection` handle as constructed by
`sdk.Connection(url=..., username=..., password=..., insecure=True)`. -/
structure Conn where
  url : String
  username : String
  insecure : Bool
deriving DecidableEq, Repr

/-- The mutable state of `UIRoot`: the session handle `self._api`
(None when disconnected), `self._ip`, and the root's children (by name). -/
structure RootState where
  api : Option Conn
  ip : Option String
  children : List String
deriving DecidableEq, Repr

/-- Result of a root `ui_command_*` handler. -/
structure RootCmdResult where
  state : RootState
  log : List String
  err : Option PyError
deriving DecidableEq, Repr

namespace UIRoot

/-- The six categories constructed by `UIRoot.refresh`, in construction
order. -/
def rootCategories : List String :=
  ["Datacenters", "Clusters", "Hosts", "Storagedomains", "Templates", "VMs"]

/-- `UIRoot.refresh`: `self._children = set([])`; then, if `self._api` is
not None, construct the six category collections. -/
def refresh (s : RootState) : RootState :=
  { s with children := if s.api.isSome then rootCategories else [] }

/-- `UIRoot.ui_command_connect(username, password, ip)`.

The source logs "Already connected. Disconnect first" when `self._api` is
not None but does NOT return there: execution continues, logs
"Connecting to ...", and assigns `self._api = sdk.Connection(...)`,
overwriting any existing handle.  The subsequent
`if self._api is None` test is always false right after that assignment.
`testOk` is the outcome of `self._api.test(raise_exception=False)`:
on failure only a log line is emitted (the handle stays set); on success
`self._ip` is set and the tree is refreshed. -/
def ui_command_connect (s : RootState) (username password ip : String)
    (testOk : Bool) : RootCmdResult :=
  let _ := password
  let log₀ := if s.api.isSome then ["Already connected. Disconnect first"] else []
  let full_url := "https://" ++ ip ++ "/ovirt-engine/api"
  let log₁ := log₀ ++ ["Connecting to " ++ ip ++ "..."]
  let conn : Conn := { url := full_url, username := username, insecure := true }
  let s₁ : RootState := { s with api := some conn }
  if testOk then
    let s₂ : RootState := { s₁ with ip := some ip }
    { state := refresh s₂
      log := log₁ ++ ["Connected to oVirt Engine."]
      err := none }
  else
    { state := s₁
      log := log₁ ++ ["Failed to test connection to oVirt Engine."]
      err := none }

/-- `UIRoot.ui_command_disconnect`: if connected, close the handle, clear
`self._api` and `self._ip` and log; otherwise log "Already disconnected".
In both branches `self.refresh()` then runs (it is outside the if/else). -/
def ui_command_disconnect (s : RootState) : RootCmdResult :=
  if s.api.isSome then
    { state := refresh { s with api := none, ip := none }
      log := ["Disconnected from oVirt Engine."]
      err := none }
  else
    { state := refresh s
      log := ["Already disconnected from oVirt Engine."]
      err := none }

end UIRoot

/-- The root-level commands that mutate the root's state. -/
inductive RootCmd where
  | connect (username password ip : String) (testOk : Bool)
  | disconnect
  | refresh
deriving Repr

/-- State transition of one root command. -/
def rootStep (s : RootState) (c : RootCmd) : RootState :=
  match c with
  | RootCmd.connect u p ip t => (UIRoot.ui_command_connect s u p ip t).state
  | RootCmd.disconnect => (UIRoot.ui_command_disconnect s).state
  | RootCmd.refresh => UIRoot.refresh s

/-- The state of a freshly constructed `UIRoot`:
`self._api = None`, `self._ip = None`, no children. -/
def rootInit : RootState :=
  { api := none, ip := none, children := [] }

/-- Run a sequence of root commands from the initial state. -/
def rootRun (cs : List RootCmd) : RootState :=
  cs.foldl rootStep rootInit

/-! ### saveconfig / restoreconfig (`ui_root.py`) -/

/-- `default_save_file = "~/ovirtlcli.json"` (as spelled in the source). -/
def default_save_file : String := "~/ovirtlcli.json"

/-- `kept_backups = 10`. -/
def kept_backups : Nat := 10

/-- `os.path.expanduser` for the forms used here: a leading `~` (alone or
followed by `/`) is replaced by the home directory; anything else is
returned unchanged. -/
def expanduser (home p : String) : String :=
  match p.data with
  | ['~'] => home
  | '~' :: '/' :: rest => home ++ String.mk ('/' :: rest)
  | _ => p

/-- `os.path.dirname`: everything before the last slash
(empty when there is no slash). -/
def dirname (p : String) : String :=
  String.intercalate "/" (p.splitOn "/").dropLast

/-- `glob(dir + "/*.json")` over a filesystem modelled as the list of
existing file paths: the files directly inside `dir` ending in `.json`. -/
def globJsonIn (dir : String) (fs : List String) : List String :=
  fs.filter (fun f =>
    f.startsWith (dir ++ "/") && f.endsWith (".json") &&
      !((f.drop (dir.length + 1)).contains '/'))

/-- Filesystem effects of one `saveconfig` run. -/
structure SaveEffects where
  copies : List (String × String)
  unlinked : List String
  log : List String
  err : Option PyError
deriving DecidableEq, Repr

/-- Module-level names bound in `ui_root.py` while its functions run:
its imports and module constants.  `ignored` — used in
`with ignored(IOError):` — is not among them: it is neither defined in the
module nor imported, so evaluating that line raises `NameError`. -/
def uiRootModuleNames : List String :=
  ["os", "shutil", "stat", "datetime", "glob", "sdk", "ExecutionError",
   "complete_path", "UINode", "UIData_centers", "UIClusters",
   "UIStorage_domains", "UITemplates", "UIVMs", "UIHosts",
   "default_save_file", "kept_backups", "UIRoot"]

namespace UIRoot

/-- `UIRoot.ui_command_saveconfig(savefile=default_save_file)`.

`home` is the user's home directory, `now` the timestamp string
`datetime.now().strftime(...)`, `fs` the list of existing file paths.
The source first expands the user path and then compares the EXPANDED path
against the unexpanded constant `default_save_file`; only on equality does
it enter the backup branch.  That branch opens with
`with ignored(IOError):`, and `ignored` is not among `uiRootModuleNames`,
so reaching it raises `NameError` before any copy; the copy of the previous
config into the sibling `backup/` directory and the deletion of all but the
`kept_backups` most recent backups
(`list(reversed(sorted(backups)))[kept_backups:]`) are modelled in the
inner branch that would run were `ignored` importable. -/
def ui_command_saveconfig (home now : String) (fs : List String)
    (savefile : String) : SaveEffects :=
  let savefile := expanduser home savefile
  if savefile == default_save_file then
    let backup_dir := dirname savefile ++ "/backup"
    let backup_name := "saveconfig-" ++ now ++ ".json"
    let backupfile := backup_dir ++ "/" ++ backup_name
    if uiRootModuleNames.contains ("ignored") then
      let copied := fs.contains savefile
      let fs₁ := if copied then fs ++ [backupfile] else fs
      let backups := List.insertionSort (fun a b => a ≤ b) (globJsonIn backup_dir fs₁)
      let files_to_unlink := backups.reverse.drop kept_backups
      { copies := if copied then [(savefile, backupfile)] else []
        unlinked := files_to_unlink
        log := ["Last 10 configs saved in " ++ backup_dir ++ ".",
                "Configuration saved to " ++ savefile]
        err := none }
    else
      { copies := []
        unlinked := []
        log := []
        err := some (PyError.nameError ("ignored")) }
  else
    { copies := []
      unlinked := []
      log := ["Configuration saved to " ++ savefile]
      err := none }

/-- Local variables of `UIRoot.ui_command_restoreconfig` that have been
assigned when control reaches the `if errors:` line: the parameters and the
re-assigned `savefile`.  The line that would assign `errors`
(`errors = self.rtsroot.restore_from_file(...)`) is commented out in the
source. -/
def restoreLocalsAtCheck : List String :=
  ["self", "savefile", "clear_existing"]

/-- Names resolvable on a `UIRoot` instance: the attributes and methods
defined by `UIRoot` (`ui_root.py`) and `UINode` (`ui_node.py`), plus the
members supplied by the external `configshell_fb.ConfigNode` base class —
the Shell Harness collaborator, which provides the REPL, tree navigation,
parameter typing, preferences and logging, and defines no privilege
helpers.  `assert_admin` is not among them: no such method exists anywhere
in the repository or in the framework's node class. -/
def uirootAttrNames : List String :=
  ["as_admin", "_api", "_ip",
   "refresh", "ui_command_connect", "ui_command_disconnect",
   "ui_command_saveconfig", "ui_command_restoreconfig",
   "ui_complete_saveconfig", "ui_complete_restoreconfig",
   "ui_command_version",
   "get_api", "is_connected", "new_node", "ui_command_refresh",
   "ui_command_status", "ui_setgroup_global", "ui_type_yesno",
   "shell", "name", "parent", "children", "summary",
   "ui_command_cd", "ui_command_ls", "ui_command_help",
   "ui_command_exit", "ui_command_get", "ui_command_set",
   "ui_command_bookmarks", "ui_command_pwd",
   "define_config_group_param", "get_root"]

/-- `UIRoot.ui_command_restoreconfig(savefile=default_save_file,
clear_existing=False)`.  Its first statement is `self.assert_admin()`, and
`assert_admin` is not among `uirootAttrNames`, so the attribute lookup
raises `AttributeError` before anything else runs.  The body that would run
were the method present is modelled in the dead branch: if the expanded
savefile does not exist, log "Restore file ... not found" and return;
otherwise `self.refresh()` runs and `if errors:` reads the local `errors`,
which is not among `restoreLocalsAtCheck` (its assignment is commented
out), so that read would raise `NameError`. -/
def ui_command_restoreconfig (home : String) (fs : List String)
    (savefile : String) : Except PyError (List String) :=
  if uirootAttrNames.contains ("assert_admin") then
    let savefile := expanduser home savefile
    if !(fs.contains savefile) then
      Except.ok ["Restore file " ++ savefile ++ " not found"]
    else
      if restoreLocalsAtCheck.contains ("errors") then
        Except.ok ["Configuration restored from " ++ savefile]
      else
        Except.error (PyError.nameError ("errors"))
  else
    Except.error (PyError.attributeError ("assert_admin"))

end UIRoot

/-! ## Claim theorems -/

/-- C1: the claim says host create polls every 5 seconds until UP or
NonOperational or 15 minutes, logging and returning without raising.  In the
source this is false for every invocation: the loop flag is assigned as
`elpased` but the `while` condition reads `elapsed`, so evaluating the
condition raises `UnboundLocalError` (a `NameError`) right after the add
request, before any poll, any log line, or any refresh. -/
theorem c1_host_create_raises_unbound_local (statuses : Nat → HostStatus) :
    UIHosts.ui_command_create statuses =
      { log := []
        calls := [RemoteCall.addHost]
        err := some (PyError.nameError ("elapsed")) } := rfl

/-- The connection handle held before the C2 scenario's second connect. -/
def c2_oldConn : Conn :=
  { url := "https://engine1/ovirt-engine/api", username := "admin", insecure := true }

/-- A connected root state, as left by a successful connect to `engine1`. -/
def c2_state : RootState :=
  { api := some c2_oldConn, ip := some "engine1", children := UIRoot.rootCategories }

/-- C2: the claim says connect fails fast when a Session already exists,
leaving the existing handle unchanged and constructing no new handle.  In
the source the guard only logs — there is no return — so a second connect
logs "Already connected. Disconnect first" and then still overwrites
`self._api` with a freshly constructed connection to the new address. -/
theorem c2_connect_already_connected_overwrites_handle :
    ((UIRoot.ui_command_connect c2_state "admin" "secret" "engine2" true).log.head? =
      some "Already connected. Disconnect first") ∧
    ((UIRoot.ui_command_connect c2_state "admin" "secret" "engine2" true).state.api =
      some { url := "https://engine2/ovirt-engine/api", username := "admin",
             insecure := true }) ∧
    ((UIRoot.ui_command_connect c2_state "admin" "secret" "engine2" true).state.api ≠
      some c2_oldConn) := by
  refine ⟨rfl, rfl, ?_⟩
  decide

/-- C3: the claim says every saveconfig at the default path copies the
previous config into `backup/` and rotates to the 10 most recent.  In the
source the guard compares the `expanduser`-EXPANDED path against the
unexpanded constant `"~/ovirtlcli.json"`, which never matches once `~` has
been expanded (home `/root` here), so the backup branch is skipped on every
default-path save: no copy is made and nothing is ever rotated, for any
filesystem contents and any number of calls. -/
theorem c3_saveconfig_default_path_skips_backup_branch (now : String)
    (fs : List String) :
    UIRoot.ui_command_saveconfig "/root" now fs default_save_file =
      { copies := []
        unlinked := []
        log := ["Configuration saved to /root/ovirtlcli.json"]
        err := none } := rfl

/-- C4 counterexample: a VMs listing with exactly one element yields zero
children after `UIVMs.refresh`, not one child per element — the claim fails
for the VMs category. -/
theorem c4_vms_refresh_counterexample :
    (UIVMs.refreshChildren [{ name := "vm1", id := "i1" }] = []) ∧
    ([{ name := "vm1", id := "i1" }] : List VM).length = 1 := ⟨rfl, rfl⟩

/-- C4 (amended): for Datacenters, Clusters, Hosts, Storage Domains and
Templates, refresh clears the children and constructs exactly one Resource
Entry child per element of the fetched list; for VMs, refresh clears the
children and fetches the list but constructs no children (the per-VM
construction is commented out in the source). -/
theorem c4_refresh_one_child_per_element_amended (dcs : List DataCenter)
    (cls : List Cluster) (hs : List Host) (sds : List StorageDomain)
    (ts : List Template) (vms : List VM) :
    (UIData_centers.refreshChildren (some dcs) = dcs.map DataCenter.name) ∧
    (UIClusters.refreshChildren (some cls) = cls.map Cluster.name) ∧
    (UIHosts.refreshChildren (some hs) = hs.map Host.name) ∧
    (UIStorage_domains.refreshChildren (some sds) = sds.map StorageDomain.name) ∧
    (UITemplates.refreshChildren ts = ts.map Template.name) ∧
    (UIVMs.refreshChildren vms = []) := ⟨rfl, rfl, rfl, rfl, rfl, rfl⟩

/-- C5: when the name-filtered lookup finds a host whose status is not
MAINTENANCE, host delete logs the deactivate-first guard message and aborts
— the only remote call is the read-only list, and the child set is
unchanged; the remote remove call is issued exactly when the status is
MAINTENANCE. -/
theorem c5_host_delete_maintenance_guard (remote : List Host)
    (children : List String) (name : String) (host : Host) (rest : List Host)
    (hfound : hostSearch remote name = host :: rest) :
    (host.status ≠ HostStatus.maintenance →
      UIHosts.ui_command_delete remote children name =
        { children := children
          log := ["Host is not in Maintenance. Deactivate it first."]
          calls := [RemoteCall.listHosts], err := none }) ∧
    (host.status = HostStatus.maintenance →
      RemoteCall.removeHost host.id ∈
        (UIHosts.ui_command_delete remote children name).calls) := by
  unfold UIHosts.ui_command_delete
  rw [hfound]
  dsimp only
  constructor
  · intro hne
    rw [if_pos hne]
  · intro heq
    rw [if_neg (by simp [heq])]
    simp

/-- Witness for C5: a host in status UP is not deleted (guard log, no remove
call, children unchanged); a host in MAINTENANCE gets the remove call. -/
theorem c5_host_delete_maintenance_guard_witness :
    (UIHosts.ui_command_delete [⟨"h1", "i1", HostStatus.up, "a1"⟩] ["h1"] "h1" =
      { children := ["h1"]
        log := ["Host is not in Maintenance. Deactivate it first."]
        calls := [RemoteCall.listHosts], err := none }) ∧
    (RemoteCall.removeHost "i2" ∈
      (UIHosts.ui_command_delete [⟨"h2", "i2", HostStatus.maintenance, "a2"⟩]
        ["h2"] "h2").calls) := by
  constructor
  · exact (c5_host_delete_maintenance_guard [⟨"h1", "i1", HostStatus.up, "a1"⟩]
      ["h1"] "h1" ⟨"h1", "i1", HostStatus.up, "a1"⟩ [] (by decide)).1 (by decide)
  · exact (c5_host_delete_maintenance_guard
      [⟨"h2", "i2", HostStatus.maintenance, "a2"⟩] ["h2"] "h2"
      ⟨"h2", "i2", HostStatus.maintenance, "a2"⟩ [] (by decide)).2 (by decide)

/-- C6: activate on a host already UP and deactivate on a host already in
MAINTENANCE issue no remote state-changing call (the only call is the
read-only list) and leave the children unchanged; in every other status the
corresponding remote endpoint is called and a refresh (re-list and rebuild
of the children) follows. -/
theorem c6_activate_deactivate_idempotent_guards (remote : List Host)
    (children : List String) (name : String) (host : Host) (rest : List Host)
    (hfound : hostSearch remote name = host :: rest) :
    (host.status = HostStatus.up →
      UIHosts.ui_command_activate remote children name =
        { children := children, log := [], calls := [RemoteCall.listHosts]
          err := none }) ∧
    (host.status = HostStatus.maintenance →
      UIHosts.ui_command_deactivate remote children name =
        { children := children, log := [], calls := [RemoteCall.listHosts]
          err := none }) ∧
    (host.status ≠ HostStatus.up →
      UIHosts.ui_command_activate remote children name =
        { children := remote.map Host.name, log := []
          calls := [RemoteCall.listHosts, RemoteCall.activateHost host.id,
                    RemoteCall.listHosts]
          err := none }) ∧
    (host.status ≠ HostStatus.maintenance →
      UIHosts.ui_command_deactivate remote children name =
        { children := remote.map Host.name, log := []
          calls := [RemoteCall.listHosts, RemoteCall.deactivateHost host.id,
                    RemoteCall.listHosts]
          err := none }) := by
  unfold UIHosts.ui_command_activate UIHosts.ui_command_deactivate
  rw [hfound]
  dsimp only
  refine ⟨?_, ?_, ?_, ?_⟩
  · intro heq
    rw [if_neg (by simp [heq])]
  · intro heq
    rw [if_neg (by simp [heq])]
  · intro hne
    rw [if_pos hne]
  · intro hne
    rw [if_pos hne]

/-- Witness for C6: all four cases at concrete hosts. -/
theorem c6_activate_deactivate_idempotent_guards_witness :
    (UIHosts.ui_command_activate [⟨"h1", "i1", HostStatus.up, "a1"⟩] ["h1"] "h1" =
      { children := ["h1"], log := [], calls := [RemoteCall.listHosts]
        err := none }) ∧
    (UIHosts.ui_command_deactivate [⟨"h2", "i2", HostStatus.maintenance, "a2"⟩]
        ["h2"] "h2" =
      { children := ["h2"], log := [], calls := [RemoteCall.listHosts]
        err := none }) ∧
    (UIHosts.ui_command_activate [⟨"h3", "i3", HostStatus.maintenance, "a3"⟩]
        ["h3"] "h3" =
      { children := ["h3"], log := []
        calls := [RemoteCall.listHosts, RemoteCall.activateHost "i3",
                  RemoteCall.listHosts]
        err := none }) ∧
    (UIHosts.ui_command_deactivate [⟨"h4", "i4", HostStatus.up, "a4"⟩]
        ["h4"] "h4" =
      { children := ["h4"], log := []
        calls := [RemoteCall.listHosts, RemoteCall.deactivateHost "i4",
                  RemoteCall.listHosts]
        err := none }) := by
  refine ⟨?_, ?_, ?_, ?_⟩
  · exact (c6_activate_deactivate_idempotent_guards
      [⟨"h1", "i1", HostStatus.up, "a1"⟩] ["h1"] "h1"
      ⟨"h1", "i1", HostStatus.up, "a1"⟩ [] (by decide)).1 (by decide)
  · exact (c6_activate_deactivate_idempotent_guards
      [⟨"h2", "i2", HostStatus.maintenance, "a2"⟩] ["h2"] "h2"
      ⟨"h2", "i2", HostStatus.maintenance, "a2"⟩ [] (by decide)).2.1 (by decide)
  · exact (c6_activate_deactivate_idempotent_guards
      [⟨"h3", "i3", HostStatus.maintenance, "a3"⟩] ["h3"] "h3"
      ⟨"h3", "i3", HostStatus.maintenance, "a3"⟩ [] (by decide)).2.2.1 (by decide)
  · exact (c6_activate_deactivate_idempotent_guards
      [⟨"h4", "i4", HostStatus.up, "a4"⟩] ["h4"] "h4"
      ⟨"h4", "i4", HostStatus.up, "a4"⟩ [] (by decide)).2.2.2 (by decide)

/-- C7: a collection delete whose name-filtered lookup returns zero matches
logs a not-found message and aborts without raising; the only remote call is
the read-only list (so zero mutating calls) and the child set is unchanged —
shown for both the Hosts and the Datacenters collections. -/
theorem c7_delete_not_found_no_mutation (remoteH : List Host)
    (childrenH : List String) (remoteD : List DataCenter)
    (childrenD : List String) (name : String)
    (hH : hostSearch remoteH name = []) (hD : dcSearch remoteD name = []) :
    (UIHosts.ui_command_delete remoteH childrenH name =
      { children := childrenH
        log := ["Host " ++ name ++ " not found. Check spelling."]
        calls := [RemoteCall.listHosts], err := none }) ∧
    (UIData_centers.ui_command_delete remoteD childrenD name =
      { children := childrenD
        log := ["Data center " ++ name ++ " not found. Check spelling"]
        calls := [RemoteCall.listDataCenters], err := none }) ∧
    RemoteCall.listHosts.isMutating = false ∧
    RemoteCall.listDataCenters.isMutating = false := by
  unfold UIHosts.ui_command_delete UIData_centers.ui_command_delete
  rw [hH, hD]
  exact ⟨rfl, rfl, rfl, rfl⟩

/-- Witness for C7: deleting a name that matches nothing in either
collection. -/
theorem c7_delete_not_found_no_mutation_witness :
    (UIHosts.ui_command_delete [⟨"h1", "i1", HostStatus.up, "a1"⟩] ["h1"] "nope" =
      { children := ["h1"]
        log := ["Host nope not found. Check spelling."]
        calls := [RemoteCall.listHosts], err := none }) ∧
    (UIData_centers.ui_command_delete [⟨"dc1", "d1"⟩] ["dc1"] "nope" =
      { children := ["dc1"]
        log := ["Data center nope not found. Check spelling"]
        calls := [RemoteCall.listDataCenters], err := none }) ∧
    RemoteCall.listHosts.isMutating = false ∧
    RemoteCall.listDataCenters.isMutating = false :=
  c7_delete_not_found_no_mutation [⟨"h1", "i1", HostStatus.up, "a1"⟩] ["h1"]
    [⟨"dc1", "d1"⟩] ["dc1"] "nope" (by decide) (by decide)

/-- Disconnect on a state with no session and no children is an identity on
the state: only the already-disconnected log line is emitted. -/
theorem disconnect_no_session (s : RootState) (hapi : s.api = none)
    (hch : s.children = []) :
    UIRoot.ui_command_disconnect s =
      { state := s, log := ["Already disconnected from oVirt Engine."]
        err := none } := by
  cases s with
  | mk api ip children =>
    cases hapi
    cases hch
    rfl

/-- Every root command leaves the tree consistent: if it ends with no
session, it ends with no children. -/
theorem rootStep_children_nil_of_api_none (s : RootState) (c : RootCmd)
    (h : (rootStep s c).api = none) : (rootStep s c).children = [] := by
  cases c with
  | connect u p ip t =>
    cases t <;> simp [rootStep, UIRoot.ui_command_connect, UIRoot.refresh] at h
  | disconnect =>
    by_cases hs : s.api.isSome <;>
      simp [rootStep, UIRoot.ui_command_disconnect, UIRoot.refresh, hs] at h ⊢
  | refresh =>
    simp [rootStep, UIRoot.refresh] at h ⊢
    simp [h]

/-- Invariant over all reachable root states: no session implies no
children. -/
theorem rootRun_children_nil_of_api_none (cs : List RootCmd)
    (h : (rootRun cs).api = none) : (rootRun cs).children = [] := by
  induction cs using List.reverseRecOn with
  | nil => rfl
  | append_singleton cs c ih =>
    rw [rootRun, List.foldl_append] at h ⊢
    exact rootStep_children_nil_of_api_none _ c h

/-- C8: on any reachable root state with no Session, disconnect only logs
the already-disconnected message, raises nothing, and returns the state
unchanged; hence any number of repeated disconnects behaves identically
(the second application shown explicitly). -/
theorem c8_disconnect_idempotent_no_session (cs : List RootCmd)
    (h : (rootRun cs).api = none) :
    (UIRoot.ui_command_disconnect (rootRun cs) =
      { state := rootRun cs
        log := ["Already disconnected from oVirt Engine."], err := none }) ∧
    (UIRoot.ui_command_disconnect
        (UIRoot.ui_command_disconnect (rootRun cs)).state =
      { state := rootRun cs
        log := ["Already disconnected from oVirt Engine."], err := none }) := by
  have hch := rootRun_children_nil_of_api_none cs h
  have h1 := disconnect_no_session (rootRun cs) h hch
  exact ⟨h1, by rw [h1]; exact h1⟩

/-- Witness for C8: the state reached by a connect followed by a disconnect
has no session; disconnecting again (twice) only logs. -/
theorem c8_disconnect_idempotent_no_session_witness :
    (UIRoot.ui_command_disconnect
        (rootRun [RootCmd.connect "admin" "pw" "e1" true, RootCmd.disconnect]) =
      { state := rootRun [RootCmd.connect "admin" "pw" "e1" true,
                          RootCmd.disconnect]
        log := ["Already disconnected from oVirt Engine."], err := none }) ∧
    (UIRoot.ui_command_disconnect
        (UIRoot.ui_command_disconnect
          (rootRun [RootCmd.connect "admin" "pw" "e1" true,
                    RootCmd.disconnect])).state =
      { state := rootRun [RootCmd.connect "admin" "pw" "e1" true,
                          RootCmd.disconnect]
        log := ["Already disconnected from oVirt Engine."], err := none }) :=
  c8_disconnect_idempotent_no_session
    [RootCmd.connect "admin" "pw" "e1" true, RootCmd.disconnect] rfl

/-- C9: root refresh wipes the children and rebuilds exactly the six
category nodes iff a session exists; connect (which always leaves a handle
set) followed by refresh yields the six distinct categories, and disconnect
followed by refresh yields zero children. -/
theorem c9_root_refresh_six_categories (s : RootState) (u p ip : String)
    (t : Bool) :
    ((UIRoot.refresh s).children =
      (if s.api.isSome then UIRoot.rootCategories else [])) ∧
    UIRoot.rootCategories.length = 6 ∧
    UIRoot.rootCategories.Nodup ∧
    ((UIRoot.refresh (UIRoot.ui_command_connect s u p ip t).state).children =
      UIRoot.rootCategories) ∧
    ((UIRoot.refresh (UIRoot.ui_command_disconnect s).state).children = []) := by
  refine ⟨rfl, rfl, by decide, ?_, ?_⟩
  · cases t <;> rfl
  · by_cases hs : s.api.isSome
    · simp [UIRoot.ui_command_disconnect, UIRoot.refresh, hs]
    · simp [UIRoot.ui_command_disconnect, UIRoot.refresh, hs]

/-- C10 counterexample: with the savefile absent — the very scenario the
claim says returns normally after a not-found log — restoreconfig still
raises: the `AttributeError` on the undefined `self.assert_admin()` (its
first statement) preempts the savefile existence check, so the not-found
path never returns normally. -/
theorem c10_restoreconfig_counterexample :
    (UIRoot.ui_command_restoreconfig "/root" [] default_save_file =
      Except.error (PyError.attributeError ("assert_admin"))) ∧
    UIRoot.ui_command_restoreconfig "/root" [] default_save_file ≠
      Except.ok ["Restore file /root/ovirtlcli.json not found"] := by
  refine ⟨rfl, ?_⟩
  intro h
  have hred : (Except.error (PyError.attributeError ("assert_admin")) :
      Except PyError (List String)) =
      Except.ok ["Restore file /root/ovirtlcli.json not found"] := h
  exact Except.noConfusion hred

/-- C10 (amended): every restoreconfig call raises an unhandled
`AttributeError` immediately: its first statement `self.assert_admin()`
names a method defined neither in this repository's `UIRoot`/`UINode` nor
by the framework's node class, so the savefile existence check is never
reached, no path returns normally (not even the not-found path), the read
of the never-assigned `errors` at the `if errors:` line is unreachable, and
no configuration is ever successfully restored. -/
theorem c10_restoreconfig_always_attribute_error_amended (home : String)
    (fs : List String) (savefile : String) :
    UIRoot.ui_command_restoreconfig home fs savefile =
      Except.error (PyError.attributeError ("assert_admin")) := rfl

end Ovirt
